import Mathlib

/-!
Verification of the task-tracker service layer (`src/services/firebaseService.ts`)
against its natural-language specification.

The Document Store is modelled shallowly: a collection is an association list
from document id to document.  `setDocL` is Firestore `setDoc` (create or
fully replace), `deleteDocL` is `deleteDoc` (removes the document, succeeds
silently when it is absent), `getDocL` is `getDoc`.  Firestore `updateDoc`
on a missing document fails; that store-level failure is the `storeNotFound`
error.  Timestamps are naturals, JS numbers are integers (so that negative
durations are representable), and a JS `undefined`/absent field is `none`.
A service operation returns `Except ServiceError σ`: on `error` nothing was
written, so the store (and every task in it) is unchanged.
-/

namespace TaskTracker

/-- Association-list document lookup: `getDoc`. -/
def getDocL {α : Type} (c : List (String × α)) (id : String) : Option α :=
  match c with
  | [] => none
  | kv :: rest => if kv.1 = id then some kv.2 else getDocL rest id

/-- Firestore `setDoc`: create the document or replace it wholesale. -/
def setDocL {α : Type} (c : List (String × α)) (id : String) (d : α) :
    List (String × α) :=
  match c with
  | [] => [(id, d)]
  | kv :: rest => if kv.1 = id then (id, d) :: rest else kv :: setDocL rest id d

/-- Firestore `deleteDoc`: remove the document; silently succeeds if absent. -/
def deleteDocL {α : Type} (c : List (String × α)) (id : String) :
    List (String × α) :=
  match c with
  | [] => []
  | kv :: rest =>
    if kv.1 = id then deleteDocL rest id else kv :: deleteDocL rest id

/-- Task status enumeration (`TaskData.status` in the source). -/
inductive TaskStatus where
  | pending
  | in_progress
  | completed
deriving DecidableEq, Repr

/-- A document of the `users` collection.  Firestore documents are free-form
maps, so every field is optional: a full-document `setDoc` write that omits a
field erases it (`none`). -/
structure UserDoc where
  email : Option String := none
  password : Option String := none
  role : Option String := none
  createdAt : Option Nat := none
  lastLogin : Option Nat := none
  deleted : Option Bool := none
  deletedAt : Option Nat := none
deriving DecidableEq, Repr

/-- A stored task document (`TaskData` in the source, plus the
`assignedBy`/`assignedTo` fields that assigned-task documents carry at
runtime and that the admin screens read). -/
structure TaskData where
  description : String
  duration : Int
  status : TaskStatus
  projectId : String
  createdBy : String
  createdAt : Nat
  completedAt : Option Nat := none
  notes : Option String := none
  assignedBy : Option String := none
  assignedTo : Option String := none
deriving DecidableEq, Repr

/-- The `createTask` argument (`Omit<TaskData, createdAt>` in the source). -/
structure TaskInput where
  description : String
  duration : Int
  status : TaskStatus
  projectId : String
  createdBy : String
  completedAt : Option Nat := none
  notes : Option String := none
deriving DecidableEq, Repr

/-- `Partial<TaskData>`: a patch for `updateTask`; `none` means the field is
absent from the patch and the stored value is kept. -/
structure TaskPatch where
  description : Option String := none
  duration : Option Int := none
  status : Option TaskStatus := none
  projectId : Option String := none
  createdBy : Option String := none
  createdAt : Option Nat := none
  completedAt : Option Nat := none
  notes : Option String := none
deriving DecidableEq, Repr

/-- The relevant collections of the Document Store. -/
structure Store where
  users : List (String × UserDoc)
  tasks : List (String × TaskData)
deriving DecidableEq, Repr

def emptyStore : Store := { users := [], tasks := [] }

/-- Errors thrown by the service layer, one constructor per distinct thrown
message, plus the store-level failure of `updateDoc` on a missing document. -/
inductive ServiceError where
  | missingRequiredFields
  | createOnlyForSelf
  | taskNotFound
  | updateOnlyOwnTasks
  | deleteOnlyOwnTasks
  | storeNotFound
  | notAdmin
deriving DecidableEq, Repr

def findTask (st : Store) (taskId : String) : Option TaskData :=
  getDocL st.tasks taskId

/-- `isUserAdmin`: the user document exists and its `role` field is the
string `admin`. -/
def isAdmin (st : Store) (uid : String) : Bool :=
  match getDocL st.users uid with
  | some d => d.role = some "admin"
  | none => false

/-- `FirebaseService.registerUser` (the Firestore part, after the auth
account is created): reads the whole `users` collection, grants role `admin`
exactly when it is empty, else `user`, and writes the profile document.
Returns the new store and the role that was assigned. -/
def registerUser (st : Store) (uid email password : String) (now : Nat) :
    Store × String :=
  let isFirstUser := st.users.isEmpty
  let role := if isFirstUser then "admin" else "user"
  let d : UserDoc :=
    { email := some email
      password := some password
      role := some role
      createdAt := some now }
  ({ st with users := setDocL st.users uid d }, role)

/-- `FirebaseService.deleteUser`: a `setDoc` (full replacement) writing only
the `deleted` flag and `deletedAt` stamp. -/
def deleteUser (st : Store) (userId : String) (now : Nat) : Store :=
  { st with
      users := setDocL st.users userId { deleted := some true, deletedAt := some now } }

def TaskInput.toTask (input : TaskInput) (now : Nat) : TaskData :=
  { description := input.description
    duration := input.duration
    status := input.status
    projectId := input.projectId
    createdBy := input.createdBy
    createdAt := now
    completedAt := input.completedAt
    notes := input.notes }

/-- `FirebaseService.createTask`.  The required-fields guard is the JS
falsiness test `!description, !duration, !projectId, !createdBy`: an empty
string and the number `0` are falsy, a negative number is not.  The security
check rejects any `createdBy` different from `userId`, with no role
exception.  On success the new document is appended (`addDoc`) under the
fresh id `newId`. -/
def createTask (st : Store) (input : TaskInput) (userId : String)
    (now : Nat) (newId : String) : Except ServiceError (Store × String) :=
  if input.description = "" ∨ input.duration = 0 ∨ input.projectId = "" ∨
      input.createdBy = "" then
    .error .missingRequiredFields
  else if input.createdBy ≠ userId then
    .error .createOnlyForSelf
  else
    .ok ({ st with tasks := st.tasks ++ [(newId, input.toTask now)] }, newId)

/-- The completion-stamp rule of `updateTask`: it inspects only the PATCH —
if the patch sets status `completed` and itself carries no `completedAt`,
the patch gains `completedAt := now`.  The stored document's `completedAt`
is never consulted. -/
def stampCompleted (p : TaskPatch) (now : Nat) : TaskPatch :=
  if p.status = some TaskStatus.completed ∧ p.completedAt = none then
    { p with completedAt := some now }
  else p

/-- Firestore `updateDoc` field merge: fields present in the patch replace
the stored ones, absent fields are kept. -/
def applyPatch (t : TaskData) (p : TaskPatch) : TaskData :=
  { description := p.description.getD t.description
    duration := p.duration.getD t.duration
    status := p.status.getD t.status
    projectId := p.projectId.getD t.projectId
    createdBy := p.createdBy.getD t.createdBy
    createdAt := p.createdAt.getD t.createdAt
    completedAt :=
      match p.completedAt with
      | some c => some c
      | none => t.completedAt
    notes :=
      match p.notes with
      | some s => some s
      | none => t.notes
    assignedBy := t.assignedBy
    assignedTo := t.assignedTo }

/-- The unconditional tail of `updateTask`: stamp the patch, then
`updateDoc`, which fails at store level when the document is missing. -/
def updateTaskWrite (st : Store) (taskId : String) (p : TaskPatch)
    (now : Nat) : Except ServiceError Store :=
  match findTask st taskId with
  | none => .error .storeNotFound
  | some t =>
    .ok { st with tasks := setDocL st.tasks taskId (applyPatch t (stampCompleted p now)) }

/-- `FirebaseService.updateTask`.  Only when the optional `userId` is
supplied does it look the task up and require `createdBy = userId`; there is
no admin bypass.  With `userId` absent the write is issued unconditionally. -/
def updateTask (st : Store) (taskId : String) (p : TaskPatch)
    (userId : Option String) (now : Nat) : Except ServiceError Store :=
  match userId with
  | some uid =>
    match findTask st taskId with
    | none => .error .taskNotFound
    | some t =>
      if t.createdBy ≠ uid then .error .updateOnlyOwnTasks
      else updateTaskWrite st taskId p now
  | none => updateTaskWrite st taskId p now

/-- `FirebaseService.deleteTask`.  Only when the optional `userId` is
supplied does it check existence and ownership; there is no admin bypass.
With `userId` absent, `deleteDoc` is issued unconditionally and succeeds
even for a missing id. -/
def deleteTask (st : Store) (taskId : String) (userId : Option String) :
    Except ServiceError Store :=
  match userId with
  | some uid =>
    match findTask st taskId with
    | none => .error .taskNotFound
    | some t =>
      if t.createdBy ≠ uid then .error .deleteOnlyOwnTasks
      else .ok { st with tasks := deleteDocL st.tasks taskId }
  | none => .ok { st with tasks := deleteDocL st.tasks taskId }

/-- Modelled from the spec: `FirebaseService.updateTaskAssignment` — the
`reassignTask` operation — is called from `AdminProjectView.handleSaveTask`
but its implementation is not among the source files.  Spec §4.3: admin-only;
changes `createdBy` to the new owner and stamps `assignedBy` with the acting
admin's uid; a non-resolving task id is a not-found error as for the other
task mutations. -/
def updateTaskAssignment (st : Store) (taskId newUserId adminId : String) :
    Except ServiceError Store :=
  if isAdmin st adminId then
    match findTask st taskId with
    | none => .error .taskNotFound
    | some t =>
      .ok { st with
              tasks := setDocL st.tasks taskId
                { t with createdBy := newUserId, assignedBy := some adminId } }
  else
    .error .notAdmin

/-- Sequential registrations: the roles assigned by running `registerUser`
once per element of the list, threading the store. -/
def regRoles : Store → List (String × String × String × Nat) → List String
  | _, [] => []
  | st, (uid, email, pw, now) :: rest =>
    let res := registerUser st uid email pw now
    res.2 :: regRoles res.1 rest

/-! ### Store lemmas -/

theorem getDocL_setDocL_self {α : Type} (c : List (String × α)) (id : String)
    (d : α) : getDocL (setDocL c id d) id = some d := by
  induction c with
  | nil => simp [setDocL, getDocL]
  | cons kv rest ih =>
    by_cases h : kv.1 = id
    · simp [setDocL, h, getDocL]
    · simp [setDocL, h, getDocL, ih]

theorem getDocL_setDocL_ne {α : Type} (c : List (String × α))
    (id a : String) (d : α) (h : a ≠ id) :
    getDocL (setDocL c id d) a = getDocL c a := by
  induction c with
  | nil =>
    simp only [setDocL, getDocL]
    rw [if_neg (fun e => h (Eq.symm e))]
  | cons kv rest ih =>
    by_cases hk : kv.1 = id
    · have hia : ¬(id = a) := fun e => h (Eq.symm e)
      have hka : ¬(kv.1 = a) := by rw [hk]; exact hia
      simp only [setDocL, if_pos hk, getDocL, if_neg hia, if_neg hka]
    · by_cases ha : kv.1 = a
      · simp only [setDocL, if_neg hk, getDocL, if_pos ha]
      · simp only [setDocL, if_neg hk, getDocL, if_neg ha, ih]

theorem getDocL_deleteDocL_self {α : Type} (c : List (String × α))
    (id : String) : getDocL (deleteDocL c id) id = none := by
  induction c with
  | nil => simp [deleteDocL, getDocL]
  | cons kv rest ih =>
    by_cases h : kv.1 = id
    · simp [deleteDocL, h, ih]
    · simp [deleteDocL, h, getDocL, ih]

theorem deleteDocL_of_not_found {α : Type} (c : List (String × α))
    (id : String) (h : getDocL c id = none) : deleteDocL c id = c := by
  induction c with
  | nil => simp [deleteDocL]
  | cons kv rest ih =>
    by_cases hk : kv.1 = id
    · simp [getDocL, hk] at h
    · simp [getDocL, hk] at h
      simp [deleteDocL, hk, ih h]

theorem setDocL_ne_nil {α : Type} (c : List (String × α)) (id : String)
    (d : α) : setDocL c id d ≠ [] := by
  cases c with
  | nil => simp [setDocL]
  | cons kv rest =>
    by_cases h : kv.1 = id <;> simp [setDocL, h]

/-! ### Concrete fixtures -/

def adminDoc : UserDoc :=
  { email := some "admin@example.com", password := some "pw"
    role := some "admin", createdAt := some 0 }

def userDoc2 : UserDoc :=
  { email := some "u2@example.com", password := some "pw"
    role := some "user", createdAt := some 0, lastLogin := some 2 }

def userDoc3 : UserDoc :=
  { email := some "u3@example.com", password := some "pw"
    role := some "user", createdAt := some 0 }

def task1 : TaskData :=
  { description := "write report", duration := 90, status := .pending
    projectId := "p1", createdBy := "u2", createdAt := 1 }

/-- A store with admin `a1`, plain users `u2` and `u3`, and one task `t1`
created by `u2`. -/
def cStore : Store :=
  { users := [("a1", adminDoc), ("u2", userDoc2), ("u3", userDoc3)]
    tasks := [("t1", task1)] }

/-- A task whose completion stamp is already set (`completedAt = 5`). -/
def taskDone : TaskData :=
  { description := "done task", duration := 30, status := .completed
    projectId := "p1", createdBy := "u1", createdAt := 1, completedAt := some 5 }

def cStoreDone : Store :=
  { users := [("u1", userDoc3)], tasks := [("tc", taskDone)] }

def patchComplete : TaskPatch := { status := some .completed }

/-- A valid task input whose owner is `u2` (not the admin `a1`). -/
def inputForU2 : TaskInput :=
  { description := "delegated work", duration := 30, status := .pending
    projectId := "p1", createdBy := "u2" }

/-- A valid input with a strictly negative duration. -/
def inputNegDur : TaskInput :=
  { description := "broken duration", duration := -5, status := .pending
    projectId := "p1", createdBy := "u2" }

/-! ### Claim C1 -/

/-- Claim C1 counterexample: `a1` is an admin, yet `updateTask` and
`deleteTask` with `a1`'s uid supplied fail with the ownership authorization
error on task `t1` created by `u2` — the service has no admin bypass, so the
claim that every admin mutation succeeds regardless of `createdBy` is false. -/
theorem admin_mutation_denied_cex :
    isAdmin cStore "a1" = true ∧
    task1.createdBy ≠ "a1" ∧
    updateTask cStore "t1" { description := some "edited" } (some "a1") 5 =
      .error .updateOnlyOwnTasks ∧
    deleteTask cStore "t1" (some "a1") = .error .deleteOnlyOwnTasks :=
  ⟨rfl, by decide, rfl, rfl⟩

/-- Claim C1 amended: for an admin principal whose uid is supplied,
`updateTask` and `deleteTask` on a task it did not create fail with the
authorization error (the service layer checks only `createdBy = userId`,
with no admin bypass); only `reassignTask` (`updateTaskAssignment`, modelled
from the spec) is admin-privileged and succeeds. -/
theorem admin_mutation_no_bypass (st : Store) (tid uid newOwner : String)
    (t : TaskData) (p : TaskPatch) (now : Nat)
    (hadmin : isAdmin st uid = true)
    (hfind : findTask st tid = some t)
    (hown : t.createdBy ≠ uid) :
    updateTask st tid p (some uid) now = .error .updateOnlyOwnTasks ∧
    deleteTask st tid (some uid) = .error .deleteOnlyOwnTasks ∧
    updateTaskAssignment st tid newOwner uid =
      .ok { st with
              tasks := setDocL st.tasks tid
                { t with createdBy := newOwner, assignedBy := some uid } } := by
  refine ⟨?_, ?_, ?_⟩
  · simp [updateTask, hfind, hown]
  · simp [deleteTask, hfind, hown]
  · simp [updateTaskAssignment, hadmin, hfind]

/-- Claim C1 amended, witness at the concrete store. -/
theorem admin_mutation_no_bypass_witness :
    updateTask cStore "t1" { description := some "edited" } (some "a1") 5 =
      .error .updateOnlyOwnTasks ∧
    deleteTask cStore "t1" (some "a1") = .error .deleteOnlyOwnTasks ∧
    updateTaskAssignment cStore "t1" "u3" "a1" =
      .ok { cStore with
              tasks := setDocL cStore.tasks "t1"
                { task1 with createdBy := "u3", assignedBy := some "a1" } } :=
  admin_mutation_no_bypass cStore "t1" "a1" "u3" task1
    { description := some "edited" } 5 rfl rfl (by decide)

/-! ### Claim C2 -/

/-- Claim C2 counterexample: the caller `a1` is an admin, the input is valid,
the target owner is `u2 ≠ a1`, yet `createTask` rejects with the
self-only error — admins get no exception in `createTask`, so the claim
that creation is allowed whenever the caller is an admin is false. -/
theorem createTask_admin_denied_cex :
    isAdmin cStore "a1" = true ∧
    inputForU2.createdBy ≠ "a1" ∧
    createTask cStore inputForU2 "a1" 7 "t9" = .error .createOnlyForSelf :=
  ⟨rfl, by decide, rfl⟩

/-- Claim C2 amended: once the required-field validation passes,
`createTask` permits creation exactly when the target owner `createdBy`
equals the caller's uid, regardless of the caller's role; admin assignment
to another user is not possible through `createTask` (the repository routes
it through the separate `createAssignedTask` operation). -/
theorem createTask_self_only (st : Store) (input : TaskInput)
    (uid : String) (now : Nat) (newId : String)
    (h1 : input.description ≠ "") (h2 : input.duration ≠ 0)
    (h3 : input.projectId ≠ "") (h4 : input.createdBy ≠ "") :
    createTask st input uid now newId =
      if input.createdBy = uid then
        .ok ({ st with tasks := st.tasks ++ [(newId, input.toTask now)] }, newId)
      else
        .error .createOnlyForSelf := by
  by_cases h : input.createdBy = uid
  · have h4b : ¬(uid = "") := h ▸ h4
    simp [createTask, h1, h2, h3, h4, h4b, h]
  · simp [createTask, h1, h2, h3, h4, h]

/-- Claim C2 amended, witness: `u2` creating for itself succeeds. -/
theorem createTask_self_only_witness :
    createTask cStore inputForU2 "u2" 7 "t9" =
      .ok ({ cStore with tasks := cStore.tasks ++ [("t9", inputForU2.toTask 7)] },
           "t9") :=
  (createTask_self_only cStore inputForU2 "u2" 7 "t9"
    (by decide) (by decide) (by decide) (by decide)).trans (by rfl)

/-! ### Claim C3 -/

/-- Claim C3: a non-admin principal whose uid is supplied cannot update or
delete a task it did not create — both operations fail with the ownership
authorization error.  The operations return the new store only on `ok`, so
an `error` outcome leaves the store, and hence the task, unchanged. -/
theorem nonowner_mutation_denied (st : Store) (tid uid : String)
    (t : TaskData) (p : TaskPatch) (now : Nat)
    (_hrole : isAdmin st uid = false)
    (hfind : findTask st tid = some t)
    (hown : t.createdBy ≠ uid) :
    updateTask st tid p (some uid) now = .error .updateOnlyOwnTasks ∧
    deleteTask st tid (some uid) = .error .deleteOnlyOwnTasks := by
  constructor
  · simp [updateTask, hfind, hown]
  · simp [deleteTask, hfind, hown]

/-- Claim C3 witness: the non-admin `u3` is denied on `u2`'s task. -/
theorem nonowner_mutation_denied_witness :
    updateTask cStore "t1" { status := some .completed } (some "u3") 5 =
      .error .updateOnlyOwnTasks ∧
    deleteTask cStore "t1" (some "u3") = .error .deleteOnlyOwnTasks :=
  nonowner_mutation_denied cStore "t1" "u3" task1
    { status := some .completed } 5 rfl rfl (by decide)

/-! ### Claim C4 -/

/-- Claim C4: `registerUser` assigns role `admin` exactly when the users
collection is empty and `user` otherwise, persists that role in the new
user document, and in any sequential run of registrations started from the
empty store the first registrant — and only the first — receives `admin`. -/
theorem registerUser_first_admin :
    (∀ (st : Store) (uid email pw : String) (now : Nat),
      (registerUser st uid email pw now).2 =
        if st.users.isEmpty then "admin" else "user") ∧
    (∀ (st : Store) (uid email pw : String) (now : Nat),
      getDocL (registerUser st uid email pw now).1.users uid =
        some { email := some email, password := some pw
               role := some (if st.users.isEmpty then "admin" else "user")
               createdAt := some now }) ∧
    (∀ (uid email pw : String) (now : Nat)
        (rs : List (String × String × String × Nat)),
      regRoles emptyStore ((uid, email, pw, now) :: rs) =
        "admin" :: rs.map (fun _ => "user")) := by
  refine ⟨?_, ?_, ?_⟩
  · intro st uid email pw now
    rfl
  · intro st uid email pw now
    simp [registerUser, getDocL_setDocL_self]
  · intro uid email pw now rs
    simp only [regRoles, registerUser, emptyStore, List.isEmpty_nil, if_true]
    refine congrArg (List.cons "admin") ?_
    have key : ∀ (l : List (String × String × String × Nat)) (st : Store),
        st.users ≠ [] → regRoles st l = l.map (fun _ => "user") := by
      intro l
      induction l with
      | nil => intro st h; simp [regRoles]
      | cons r rest ih =>
        intro st h
        obtain ⟨ruid, remail, rpw, rnow⟩ := r
        have hne : st.users.isEmpty = false := by
          cases hu : st.users with
          | nil => exact absurd hu h
          | cons a l2 => simp
        simp only [regRoles, registerUser, hne, if_false, List.map_cons]
        refine congrArg (List.cons "user") ?_
        exact ih _ (setDocL_ne_nil st.users ruid _)
    exact key rs _ (setDocL_ne_nil [] uid _)

/-! ### Claim C5 -/

/-- Claim C5 counterexample: task `tc` has stored `completedAt = 5`;
re-applying the patch `status := completed` (with no `completedAt` field in
the patch) at time 9 overwrites the stored stamp with 9 — the guard in
`updateTask` inspects the patch, not the stored record, so the claim that an
already-set `completedAt` is never overwritten is false. -/
theorem completedAt_overwritten_cex :
    Option.map TaskData.completedAt (findTask cStoreDone "tc") = some (some 5) ∧
    Except.map (fun s => Option.map TaskData.completedAt (findTask s "tc"))
        (updateTask cStoreDone "tc" patchComplete (some "u1") 9) =
      .ok (some (some 9)) :=
  ⟨rfl, rfl⟩

/-- Claim C5 amended: a patch that sets status `completed` and itself
carries no `completedAt` always receives `completedAt := now`, and the
written document therefore carries `completedAt = now` — regardless of
whether the stored task already had a completion stamp.  (The first half of
the original claim, stamping when unset, is the special case
`t.completedAt = none`.) -/
theorem completed_patch_always_stamps (st : Store) (tid uid : String)
    (t : TaskData) (p : TaskPatch) (now : Nat)
    (hfind : findTask st tid = some t)
    (hown : t.createdBy = uid)
    (hs : p.status = some TaskStatus.completed)
    (hc : p.completedAt = none) :
    updateTask st tid p (some uid) now =
      .ok { st with
              tasks := setDocL st.tasks tid
                (applyPatch t { p with completedAt := some now }) } ∧
    (applyPatch t { p with completedAt := some now }).completedAt = some now := by
  constructor
  · simp [updateTask, hfind, hown, updateTaskWrite, stampCompleted, hs, hc]
  · simp [applyPatch]

/-- Claim C5 amended, witness at the already-completed task. -/
theorem completed_patch_always_stamps_witness :
    updateTask cStoreDone "tc" patchComplete (some "u1") 9 =
      .ok { cStoreDone with
              tasks := setDocL cStoreDone.tasks "tc"
                (applyPatch taskDone { patchComplete with completedAt := some 9 }) } ∧
    (applyPatch taskDone { patchComplete with completedAt := some 9 }).completedAt =
      some 9 :=
  completed_patch_always_stamps cStoreDone "tc" "u1" taskDone patchComplete 9
    rfl rfl rfl rfl

/-! ### Claim C6 -/

/-- Claim C6 counterexample: an input with `duration = -5` (and all other
fields valid) passes the falsiness-based required-field check of
`createTask` — only `0` is falsy — and the task is persisted, so the claim
that every `duration ≤ 0` input is rejected is false. -/
theorem negative_duration_accepted_cex :
    inputNegDur.duration < 0 ∧
    createTask cStore inputNegDur "u2" 7 "t9" =
      .ok ({ cStore with tasks := cStore.tasks ++ [("t9", inputNegDur.toTask 7)] },
           "t9") ∧
    findTask { cStore with tasks := cStore.tasks ++ [("t9", inputNegDur.toTask 7)] }
        "t9" = some (inputNegDur.toTask 7) :=
  ⟨by decide, rfl, by decide⟩

/-- Claim C6 amended: `createTask` rejects an empty description, a zero
duration, or a missing (empty) projectId with the validation error before
any store write — the error return means nothing is persisted — but a
strictly negative duration is truthy and is NOT rejected. -/
theorem createTask_validation_gate (st : Store) (input : TaskInput)
    (uid : String) (now : Nat) (newId : String)
    (h : input.description = "" ∨ input.duration = 0 ∨ input.projectId = "") :
    createTask st input uid now newId = .error .missingRequiredFields := by
  rcases h with h | h | h <;> simp [createTask, h]

/-- Claim C6 amended, witness: zero duration is rejected. -/
theorem createTask_validation_gate_witness :
    createTask cStore { inputForU2 with duration := 0 } "u2" 7 "t9" =
      .error .missingRequiredFields :=
  createTask_validation_gate cStore { inputForU2 with duration := 0 } "u2" 7 "t9"
    (Or.inr (Or.inl rfl))

/-! ### Claim C7 -/

/-- Claim C7 (modelled from the spec, since `updateTaskAssignment` is called
from `AdminProjectView.handleSaveTask` but not implemented among the source
files): reassignment is admin-only — a non-admin caller gets the denial
error — and for an admin caller its entire effect on the task record is
`createdBy := newOwnerUid` and `assignedBy := caller`, every other field of
the record being preserved by the record update. -/
theorem reassign_admin_only_effect (st : Store) (tid newOwner caller : String)
    (t : TaskData) (hfind : findTask st tid = some t) :
    updateTaskAssignment st tid newOwner caller =
      if isAdmin st caller then
        .ok { st with
                tasks := setDocL st.tasks tid
                  { t with createdBy := newOwner, assignedBy := some caller } }
      else
        .error .notAdmin := by
  cases hb : isAdmin st caller <;> simp [updateTaskAssignment, hb, hfind]

/-- Claim C7 witness: the admin `a1` reassigns `u2`'s task to `u3`. -/
theorem reassign_admin_only_effect_witness :
    updateTaskAssignment cStore "t1" "u3" "a1" =
      .ok { cStore with
              tasks := setDocL cStore.tasks "t1"
                { task1 with createdBy := "u3", assignedBy := some "a1" } } :=
  (reassign_admin_only_effect cStore "t1" "u3" "a1" task1 rfl).trans (by rfl)

/-! ### Claim C8 -/

/-- Claim C8 counterexample: `zz` resolves to no task, yet `deleteTask`
with the optional `userId` omitted succeeds silently and leaves the store
unchanged — so the claim that deleting a non-existent id always fails with
the not-found error is false. -/
theorem delete_missing_silent_cex :
    findTask cStore "zz" = none ∧
    deleteTask cStore "zz" none = .ok cStore :=
  ⟨rfl, rfl⟩

/-- Claim C8 amended: deleting a non-resolving task id fails with the
not-found error exactly when the caller supplies a `userId`; with `userId`
omitted no existence check is performed and the delete succeeds silently,
returning the store unchanged. -/
theorem delete_missing_notfound (st : Store) (tid uid : String)
    (h : findTask st tid = none) :
    deleteTask st tid (some uid) = .error .taskNotFound ∧
    deleteTask st tid none = .ok st := by
  have hg : getDocL st.tasks tid = none := h
  constructor
  · simp [deleteTask, h]
  · simp [deleteTask, deleteDocL_of_not_found st.tasks tid hg]

/-- Claim C8 amended, witness at the missing id `zz`. -/
theorem delete_missing_notfound_witness :
    deleteTask cStore "zz" (some "u2") = .error .taskNotFound ∧
    deleteTask cStore "zz" none = .ok cStore :=
  delete_missing_notfound cStore "zz" "u2" rfl

/-! ### Claim C9 -/

/-- Claim C9 counterexample: before deletion the record of `u2` carries an
email; `deleteUser` performs a full-document `setDoc` replacement, so
afterwards the record holds ONLY the `deleted` flag and `deletedAt` stamp —
the email (and every other field) is erased, contradicting the claim that
all other fields are left unchanged. -/
theorem deleteUser_erases_fields_cex :
    getDocL cStore.users "u2" = some userDoc2 ∧
    userDoc2.email = some "u2@example.com" ∧
    getDocL (deleteUser cStore "u2" 9).users "u2" =
      some { deleted := some true, deletedAt := some 9 } ∧
    (({ deleted := some true, deletedAt := some 9 } : UserDoc)).email = none :=
  ⟨rfl, rfl, rfl, rfl⟩

/-- Claim C9 amended: `deleteUser` is soft in the sense that the record is
not removed — a document for the uid still exists and carries
`deleted = true` — but the `setDoc` write replaces the whole document, so
every other field (email, role, createdAt, lastLogin) is erased to absent;
records of other users are untouched. -/
theorem deleteUser_soft_replace (st : Store) (uid other : String) (now : Nat)
    (h : other ≠ uid) :
    getDocL (deleteUser st uid now).users uid =
      some { deleted := some true, deletedAt := some now } ∧
    getDocL (deleteUser st uid now).users other = getDocL st.users other := by
  constructor
  · simp [deleteUser, getDocL_setDocL_self]
  · simp [deleteUser, getDocL_setDocL_ne st.users uid other _ h]

/-- Claim C9 amended, witness: deleting `u2` leaves `a1` untouched. -/
theorem deleteUser_soft_replace_witness :
    getDocL (deleteUser cStore "u2" 9).users "u2" =
      some { deleted := some true, deletedAt := some 9 } ∧
    getDocL (deleteUser cStore "u2" 9).users "a1" = getDocL cStore.users "a1" :=
  deleteUser_soft_replace cStore "u2" "a1" 9 (by decide)

/-! ### Claim C10 -/

/-- Claim C10: with the optional `userId` omitted, `updateTask` and
`deleteTask` perform no existence or ownership check — the write is issued
unconditionally, so any existing task can be modified and any id deleted
(the deletion removing the task) by a caller that withholds its identity —
while the ownership authorization error arises exactly when a `userId` is
supplied that differs from the task's `createdBy`. -/
theorem mutations_unchecked_without_uid (st : Store) (tid uid : String)
    (t : TaskData) (p : TaskPatch) (now : Nat)
    (hfind : findTask st tid = some t)
    (hown : t.createdBy ≠ uid) :
    updateTask st tid p none now =
      .ok { st with
              tasks := setDocL st.tasks tid (applyPatch t (stampCompleted p now)) } ∧
    deleteTask st tid none = .ok { st with tasks := deleteDocL st.tasks tid } ∧
    findTask { st with tasks := deleteDocL st.tasks tid } tid = none ∧
    updateTask st tid p (some uid) now = .error .updateOnlyOwnTasks ∧
    deleteTask st tid (some uid) = .error .deleteOnlyOwnTasks := by
  refine ⟨?_, ?_, ?_, ?_, ?_⟩
  · simp [updateTask, updateTaskWrite, hfind]
  · simp [deleteTask]
  · simp [findTask, getDocL_deleteDocL_self]
  · simp [updateTask, hfind, hown]
  · simp [deleteTask, hfind, hown]

/-- Claim C10 witness: the anonymous caller mutates and deletes `u2`'s task. -/
theorem mutations_unchecked_without_uid_witness :
    updateTask cStore "t1" patchComplete none 9 =
      .ok { cStore with
              tasks := setDocL cStore.tasks "t1"
                (applyPatch task1 (stampCompleted patchComplete 9)) } ∧
    deleteTask cStore "t1" none =
      .ok { cStore with tasks := deleteDocL cStore.tasks "t1" } ∧
    findTask { cStore with tasks := deleteDocL cStore.tasks "t1" } "t1" = none ∧
    updateTask cStore "t1" patchComplete (some "u3") 9 =
      .error .updateOnlyOwnTasks ∧
    deleteTask cStore "t1" (some "u3") = .error .deleteOnlyOwnTasks :=
  mutations_unchecked_without_uid cStore "t1" "u3" task1 patchComplete 9
    rfl (by decide)

end TaskTracker
